import Mathlib

/-!
Shallow embedding of `scripts/auto_pubmed_pmc_to_zotero.py` (v5.0.0).

The script is a batch synchronization job: for each configured topic it
searches PubMed, diffs the returned PMIDs against a per-topic processed
list kept in a JSON state file, translates the new PMIDs into Zotero
items and submits them in one batch, advancing the state only when the
write reports success.

Modelling conventions:
- Python dicts keyed by strings (`state["topics"]`, the esummary result)
  become association lists with first-match lookup; `dict.setdefault`
  and key assignment become `dictSetdefault` and `dictSet`.
- Each outbound HTTP call is parameterised by its outcome: a `NetResult`
  (the decoded payload, or `err` for a raised
  `requests.exceptions.RequestException`, which also covers
  `raise_for_status` and JSON decode failures), and for the Zotero POST
  a `WriteOutcome` (a status code, a timeout, or another request error).
- `datetime.now().isoformat()` is an input string `now`.
- A topic-state dict `{"processed_pmids": [...]}` with an optional
  `"last_update"` key becomes `TopicState` with `last_update : Option String`
  (`none` = key absent).
-/

/-- One entry of `state["topics"]`: the dict
`{"processed_pmids": [...], "last_update": ...}` (the second key optional). -/
structure TopicState where
  processed_pmids : List String
  last_update : Option String
deriving DecidableEq, Repr

/-- The whole state file: `{"last_run": ..., "topics": {...}}`. -/
structure RunState where
  last_run : Option String
  topics : List (String × TopicState)
deriving DecidableEq, Repr

/-- One topic configuration dict from `TOPICS`. -/
structure Topic where
  name : String
  collection : String
  query : String
deriving DecidableEq, Repr

/-- First-match lookup in an association list: Python `d.get(k)` / `d[k]`. -/
def dictLookup {α : Type} : List (String × α) → String → Option α
  | [], _ => none
  | (k, v) :: rest, key => if k = key then some v else dictLookup rest key

/-- Python `d.setdefault(k, v)`: return the dict, inserting `(k, v)` when
`k` is absent (dict insertion appends at the end). -/
def dictSetdefault {α : Type} (d : List (String × α)) (key : String) (v : α) :
    List (String × α) :=
  match dictLookup d key with
  | some _ => d
  | none => d ++ [(key, v)]

/-- Python `d[k] = v` for a key already present: replace its value in place. -/
def dictSet {α : Type} : List (String × α) → String → α → List (String × α)
  | [], _, _ => []
  | (k, w) :: rest, key, v =>
      if k = key then (k, v) :: rest else (k, w) :: dictSet rest key v

/-- The fresh per-topic default `{"processed_pmids": []}` used by
`state.setdefault("topics", {}).setdefault(name, {"processed_pmids": []})`. -/
def freshTopicState : TopicState := { processed_pmids := [], last_update := none }

/-- The per-topic state dict the orchestrator sees for `name`
(after the `setdefault` this is always present; `getD` supplies the same
default the code inserts). -/
def topicStateOf (state : RunState) (name : String) : TopicState :=
  (dictLookup state.topics name).getD freshTopicState

/-- The `processed_pmids` list the orchestrator reads for `name`
(`topic_state.get("processed_pmids", [])`). -/
def processedOf (state : RunState) (name : String) : List String :=
  (topicStateOf state name).processed_pmids

/-- Condition of the state file when `load_state` runs: absent, raising on
read or parse, or readable with parsed contents. -/
inductive StateFileCondition where
  | absent
  | unreadable
  | content : RunState → StateFileCondition
deriving DecidableEq

/-- `load_state`: `{"last_run": None, "topics": {}}` when the file does not
exist; the parsed JSON when reading succeeds; the same fresh state when
`open`/`json.load` raises (the `except Exception` branch). -/
def load_state (file : StateFileCondition) : RunState :=
  match file with
  | .absent => { last_run := none, topics := [] }
  | .unreadable => { last_run := none, topics := [] }
  | .content s => s

/-- Outcome of one GET against NCBI, as seen after decoding: `ok` carries the
value extracted from the JSON, `err` is a raised `RequestException`. -/
inductive NetResult (α : Type) where
  | ok : α → NetResult α
  | err : NetResult α
deriving DecidableEq

/-- `esearch_pubmed`: returns the decoded
`data.get("esearchresult", {}).get("idlist", [])` on success and `[]` when
the request raises (`except requests.exceptions.RequestException`). -/
def esearch_pubmed (resp : NetResult (List String)) : List String :=
  match resp with
  | .ok idlist => idlist
  | .err => []

/-- One ESummary record: the fields `make_zotero_item` reads with
`summary.get(...)`; `none` models an absent key (the empty dict `{}` is all
`none`). -/
structure Summary where
  title : Option String
  fulljournalname : Option String
  pubdate : Option String
  volume : Option String
  issue : Option String
  pages : Option String
deriving DecidableEq, Repr

/-- The empty dict `{}` used for `summaries.get(pmid, {})`. -/
def emptySummary : Summary :=
  { title := none, fulljournalname := none, pubdate := none,
    volume := none, issue := none, pages := none }

/-- `fetch_pubmed_summaries`: `{}` for an empty pmid list; on success the
mapping built from `data["uids"]`; `{}` when the request raises. -/
def fetch_pubmed_summaries (pmids : List String)
    (resp : NetResult (List (String × Summary))) : List (String × Summary) :=
  if pmids = [] then []
  else
    match resp with
    | .ok summaries => summaries
    | .err => []

/-- The Zotero item dict built by `make_zotero_item` (fields that are always
the empty string in the source are kept to mirror the schema). -/
structure ZoteroItem where
  itemType : String
  title : String
  creators : List String
  abstractNote : String
  publicationTitle : String
  volume : String
  issue : String
  pages : String
  date : String
  url : String
  extra : String
  tags : List String
  collections : List String
deriving DecidableEq, Repr

/-- `make_zotero_item(pmid, summary, topic_name, collection_key)`: every
field read from `summary` falls back to the `.get` default; the title
default is `f"PMID {pmid}"`. `collection_key` is accepted but, as in the
source, never placed in the item (`"collections": []`). -/
def make_zotero_item (pmid : String) (summary : Summary) (topic_name : String)
    (collection_key : String) : ZoteroItem :=
  { itemType := "journalArticle"
    title := summary.title.getD ("PMID " ++ pmid)
    creators := []
    abstractNote := ""
    publicationTitle := summary.fulljournalname.getD ""
    volume := summary.volume.getD ""
    issue := summary.issue.getD ""
    pages := summary.pages.getD ""
    date := summary.pubdate.getD ""
    url := "https://pubmed.ncbi.nlm.nih.gov/" ++ pmid ++ "/"
    extra := "PMID: " ++ pmid
    tags := ["auto:pubmed", "topic:" ++ topic_name]
    collections := [] }

/-- Python truthiness of an optional environment variable:
`not ZOTERO_USER_ID` is true for an unset or empty variable. -/
def truthy : Option String → Bool
  | none => false
  | some s => s ≠ ""

/-- Outcome of the Zotero POST: an HTTP response with a status code, a
`requests.exceptions.Timeout`, or another `RequestException`. -/
inductive WriteOutcome where
  | status : Nat → WriteOutcome
  | timeout : WriteOutcome
  | requestError : WriteOutcome
deriving DecidableEq

/-- `push_to_zotero(items, dry_run)`: 0 for an empty batch; in dry-run the
would-be count `len(items)`; 0 with missing credentials; otherwise
`len(items)` when the POST status is 200 or 201 and 0 on any other status,
timeout, or request error. -/
def push_to_zotero (items : List ZoteroItem) (dry_run : Bool)
    (user_id api_key : Option String) (outcome : WriteOutcome) : Nat :=
  if items = [] then 0
  else if dry_run then items.length
  else if !truthy user_id || !truthy api_key then 0
  else
    match outcome with
    | .status code => if code = 200 ∨ code = 201 then items.length else 0
    | .timeout => 0
    | .requestError => 0

/-- `new_pmids = [p for p in pmids if p not in processed_set]`
(`processed_set = set(processed)`, so the test is membership in
`processed`). -/
def new_ids (processed : List String) (pmids : List String) : List String :=
  pmids.filter (fun p => decide (p ∉ processed))

/-- The item-building loop of `process_topic`: one `make_zotero_item` per
new pmid, with `summaries.get(pmid, {})` supplying the metadata. -/
def build_items (new_pmids : List String) (summaries : List (String × Summary))
    (name collection : String) : List ZoteroItem :=
  new_pmids.map (fun pmid =>
    make_zotero_item pmid ((dictLookup summaries pmid).getD emptySummary) name collection)

/-- The per-call network environment of one `process_topic` invocation. -/
structure NetworkEnv where
  searchOutcome : NetResult (List String)
  summaryOutcome : NetResult (List (String × Summary))
  writeOutcome : WriteOutcome
  now : String

/-- `process_topic(topic, state, days_back, retmax, dry_run)`: returns the
updated state (the Python code mutates `state` in place) together with the
triple `(total_found, len(new_pmids), written)`. `days_back` and `retmax`
are forwarded to the search request, whose outcome `env.searchOutcome`
already reflects them. -/
def process_topic (topic : Topic) (state : RunState) (days_back retmax : Nat)
    (dry_run : Bool) (user_id api_key : Option String) (env : NetworkEnv) :
    RunState × Nat × Nat × Nat :=
  let name := topic.name
  let topics1 := dictSetdefault state.topics name freshTopicState
  let topic_state := (dictLookup topics1 name).getD freshTopicState
  let processed := topic_state.processed_pmids
  let pmids := esearch_pubmed env.searchOutcome
  let total_found := pmids.length
  let new_pmids := new_ids processed pmids
  if new_pmids = [] then
    ({ state with topics := topics1 }, total_found, 0, 0)
  else
    let summaries := fetch_pubmed_summaries new_pmids env.summaryOutcome
    let items := build_items new_pmids summaries name topic.collection
    let written := push_to_zotero items dry_run user_id api_key env.writeOutcome
    if written > 0 ∧ dry_run = false then
      ({ state with
          topics := dictSet topics1 name
            { processed_pmids := processed ++ new_pmids,
              last_update := some env.now } },
        total_found, new_pmids.length, written)
    else
      ({ state with topics := topics1 }, total_found, new_pmids.length, written)

/-- The per-topic loop of `main`: fold `process_topic` over the topic list,
collecting each topic's `(found, new, written)` report. -/
def run_topics (topics : List Topic) (state : RunState) (days_back retmax : Nat)
    (dry_run : Bool) (user_id api_key : Option String) (envs : Topic → NetworkEnv) :
    RunState × List (String × Nat × Nat × Nat) :=
  match topics with
  | [] => (state, [])
  | t :: rest =>
      let r := process_topic t state days_back retmax dry_run user_id api_key (envs t)
      let tail := run_topics rest r.1 days_back retmax dry_run user_id api_key envs
      (tail.1, (t.name, r.2) :: tail.2)

/-! ### Derived views of one `process_topic` call -/

/-- The candidate list a run of `process_topic` passes downstream:
`new_pmids` computed from the stored processed list and the search result. -/
def candidate_ids (state : RunState) (topic : Topic) (env : NetworkEnv) : List String :=
  new_ids (processedOf state topic.name) (esearch_pubmed env.searchOutcome)

/-- The batch `items` a run of `process_topic` hands to `push_to_zotero`. -/
def submitted_items (state : RunState) (topic : Topic) (env : NetworkEnv) : List ZoteroItem :=
  build_items (candidate_ids state topic env)
    (fetch_pubmed_summaries (candidate_ids state topic env) env.summaryOutcome)
    topic.name topic.collection

/-- The `written` count `push_to_zotero` reports inside `process_topic`. -/
def written_count (state : RunState) (topic : Topic) (dry_run : Bool)
    (user_id api_key : Option String) (env : NetworkEnv) : Nat :=
  push_to_zotero (submitted_items state topic env) dry_run user_id api_key env.writeOutcome

/-! ### Association-list lemmas -/

theorem dictLookup_append_single_self {α : Type} (d : List (String × α)) (key : String)
    (v : α) (h : dictLookup d key = none) :
    dictLookup (d ++ [(key, v)]) key = some v := by
  induction d with
  | nil => simp [dictLookup]
  | cons kv rest ih =>
      obtain ⟨k, w⟩ := kv
      by_cases hk : k = key
      · simp [dictLookup, hk] at h
      · simp only [dictLookup, List.cons_append, if_neg hk] at h ⊢
        exact ih h

theorem dictLookup_append_single_other {α : Type} (d : List (String × α))
    (key other : String) (v : α) (hne : other ≠ key) :
    dictLookup (d ++ [(key, v)]) other = dictLookup d other := by
  induction d with
  | nil => simp [dictLookup, Ne.symm hne]
  | cons kv rest ih =>
      obtain ⟨k, w⟩ := kv
      by_cases hk : k = other <;> simp [dictLookup, hk, ih]

theorem dictLookup_setdefault_self {α : Type} (d : List (String × α)) (key : String) (v : α) :
    dictLookup (dictSetdefault d key v) key = some ((dictLookup d key).getD v) := by
  unfold dictSetdefault
  cases h : dictLookup d key with
  | some w => simp [h]
  | none => simp [dictLookup_append_single_self d key v h]

theorem dictLookup_setdefault_other {α : Type} (d : List (String × α))
    (key other : String) (v : α) (hne : other ≠ key) :
    dictLookup (dictSetdefault d key v) other = dictLookup d other := by
  unfold dictSetdefault
  cases h : dictLookup d key with
  | some w => rfl
  | none => exact dictLookup_append_single_other d key other v hne

theorem dictLookup_set_self {α : Type} (d : List (String × α)) (key : String) (v w : α)
    (h : dictLookup d key = some w) :
    dictLookup (dictSet d key v) key = some v := by
  induction d with
  | nil => simp [dictLookup] at h
  | cons kv rest ih =>
      obtain ⟨k, u⟩ := kv
      by_cases hk : k = key
      · simp [dictLookup, dictSet, hk]
      · simp only [dictLookup, dictSet, if_neg hk] at h ⊢
        exact ih h

theorem dictLookup_set_other {α : Type} (d : List (String × α)) (key other : String)
    (v : α) (hne : other ≠ key) :
    dictLookup (dictSet d key v) other = dictLookup d other := by
  induction d with
  | nil => rfl
  | cons kv rest ih =>
      obtain ⟨k, u⟩ := kv
      by_cases hk : k = key
      · subst hk
        simp [dictSet, dictLookup, Ne.symm hne]
      · by_cases hko : k = other <;> simp [dictSet, dictLookup, hk, hko, hne, ih]

theorem topicStateOf_setdefault (state : RunState) (name : String) :
    (dictLookup (dictSetdefault state.topics name freshTopicState) name).getD freshTopicState
      = topicStateOf state name := by
  rw [dictLookup_setdefault_self]
  rfl

/-! ### Characterization of `process_topic` -/

/-- `process_topic` written as one case split over the derived views: the
no-new-ids early return, the state-advancing branch (`written > 0 and not
dry_run`), and the unchanged branch. -/
theorem process_topic_eq (topic : Topic) (state : RunState) (days_back retmax : Nat)
    (dry_run : Bool) (user_id api_key : Option String) (env : NetworkEnv) :
    process_topic topic state days_back retmax dry_run user_id api_key env =
      if candidate_ids state topic env = [] then
        ({ state with topics := dictSetdefault state.topics topic.name freshTopicState },
          (esearch_pubmed env.searchOutcome).length, 0, 0)
      else if written_count state topic dry_run user_id api_key env > 0 ∧ dry_run = false then
        ({ state with
            topics := dictSet (dictSetdefault state.topics topic.name freshTopicState)
              topic.name
              { processed_pmids := processedOf state topic.name ++ candidate_ids state topic env,
                last_update := some env.now } },
          (esearch_pubmed env.searchOutcome).length, (candidate_ids state topic env).length,
          written_count state topic dry_run user_id api_key env)
      else
        ({ state with topics := dictSetdefault state.topics topic.name freshTopicState },
          (esearch_pubmed env.searchOutcome).length, (candidate_ids state topic env).length,
          written_count state topic dry_run user_id api_key env) := by
  simp only [process_topic, candidate_ids, written_count, submitted_items, processedOf,
    topicStateOf_setdefault]

theorem dictLookup_set_setdefault_self {α : Type} (d : List (String × α))
    (key : String) (v w : α) :
    dictLookup (dictSet (dictSetdefault d key w) key v) key = some v :=
  dictLookup_set_self _ key v ((dictLookup d key).getD w)
    (dictLookup_setdefault_self d key w)

theorem topicStateOf_setdefault_all (state : RunState) (key nm : String) :
    topicStateOf { state with topics := dictSetdefault state.topics key freshTopicState } nm
      = topicStateOf state nm := by
  by_cases h : nm = key
  · subst h
    unfold topicStateOf
    simp [dictLookup_setdefault_self]
  · unfold topicStateOf
    simp only [dictLookup_setdefault_other state.topics key nm freshTopicState h]

theorem topicStateOf_set_setdefault (state : RunState) (key : String) (v : TopicState) :
    topicStateOf
      { state with topics := dictSet (dictSetdefault state.topics key freshTopicState) key v }
      key = v := by
  unfold topicStateOf
  rw [dictLookup_set_setdefault_self]
  rfl

theorem mem_new_ids {processed pmids : List String} {p : String} :
    p ∈ new_ids processed pmids ↔ p ∈ pmids ∧ p ∉ processed := by
  unfold new_ids
  simp [List.mem_filter]

theorem new_ids_append_self (processed pmids : List String) :
    new_ids (processed ++ new_ids processed pmids) pmids = [] := by
  unfold new_ids
  rw [List.filter_eq_nil_iff]
  intro p hp
  simp only [decide_eq_true_eq, not_not, List.mem_append, List.mem_filter]
  by_cases h : p ∈ processed
  · exact Or.inl h
  · exact Or.inr ⟨hp, by simpa using h⟩

theorem run_topics_report_length (topics : List Topic) (state : RunState)
    (days_back retmax : Nat) (dry_run : Bool) (user_id api_key : Option String)
    (envs : Topic → NetworkEnv) :
    (run_topics topics state days_back retmax dry_run user_id api_key envs).2.length
      = topics.length := by
  induction topics generalizing state with
  | nil => rfl
  | cons t rest ih => simp [run_topics, ih]

/-! ### Claim theorems -/

/-- C1: in any `process_topic` run the stored processed sequence is advanced
— the candidate ids appended and a per-topic update time stamped — exactly
when the writer reports a positive success count in a non-preview run; a
write reporting zero successes (and likewise a preview run) leaves the
topic's state exactly as it was before the write attempt. -/
theorem c1_processed_advance_iff_write_success (topic : Topic) (state : RunState)
    (days_back retmax : Nat) (dry_run : Bool) (user_id api_key : Option String)
    (env : NetworkEnv) (state' : RunState) (found newN written : Nat)
    (h : process_topic topic state days_back retmax dry_run user_id api_key env
          = (state', found, newN, written)) :
    (written > 0 ∧ dry_run = false →
        topicStateOf state' topic.name =
          { processed_pmids :=
              processedOf state topic.name ++ candidate_ids state topic env,
            last_update := some env.now } ∧
        candidate_ids state topic env ≠ []) ∧
    (written = 0 ∨ dry_run = true →
        topicStateOf state' topic.name = topicStateOf state topic.name) := by
  rw [process_topic_eq] at h
  by_cases hc : candidate_ids state topic env = []
  · rw [if_pos hc] at h
    simp only [Prod.mk.injEq] at h
    obtain ⟨rfl, rfl, rfl, rfl⟩ := h
    constructor
    · rintro ⟨hw, -⟩
      exact absurd hw (by simp)
    · intro _
      exact topicStateOf_setdefault_all state topic.name topic.name
  · rw [if_neg hc] at h
    by_cases hw : written_count state topic dry_run user_id api_key env > 0 ∧ dry_run = false
    · rw [if_pos hw] at h
      simp only [Prod.mk.injEq] at h
      obtain ⟨rfl, rfl, rfl, rfl⟩ := h
      constructor
      · intro _
        exact ⟨topicStateOf_set_setdefault state topic.name _, hc⟩
      · rintro (h0 | hd)
        · exact absurd hw.1 (by omega)
        · rw [hw.2] at hd
          exact absurd hd (by simp)
    · rw [if_neg hw] at h
      simp only [Prod.mk.injEq] at h
      obtain ⟨rfl, rfl, rfl, rfl⟩ := h
      constructor
      · intro hpos
        exact absurd hpos hw
      · intro _
        exact topicStateOf_setdefault_all state topic.name topic.name

/-- Witness for C1: a concrete successful non-preview run appends the two
new ids and stamps the update time. -/
theorem c1_witness :
    topicStateOf
      (process_topic ⟨"T1", "COLL", "Q"⟩ ⟨none, []⟩ 30 200 false (some "u") (some "k")
        ⟨NetResult.ok ["100", "101"], NetResult.ok [], WriteOutcome.status 200, "t0"⟩).1
      "T1"
      = { processed_pmids :=
            processedOf ⟨none, []⟩ "T1" ++
              candidate_ids ⟨none, []⟩ ⟨"T1", "COLL", "Q"⟩
                ⟨NetResult.ok ["100", "101"], NetResult.ok [], WriteOutcome.status 200, "t0"⟩,
          last_update := some "t0" } ∧
    candidate_ids ⟨none, []⟩ ⟨"T1", "COLL", "Q"⟩
        ⟨NetResult.ok ["100", "101"], NetResult.ok [], WriteOutcome.status 200, "t0"⟩ ≠ [] :=
  (c1_processed_advance_iff_write_success ⟨"T1", "COLL", "Q"⟩ ⟨none, []⟩ 30 200 false
      (some "u") (some "k")
      ⟨NetResult.ok ["100", "101"], NetResult.ok [], WriteOutcome.status 200, "t0"⟩
      _ 2 2 2 rfl).1 ⟨by decide, rfl⟩

/-- C2 counterexample: on the spec's own example — `found_ids =
["1","2","2","3"]`, `processed = ["1"]` — the candidate list computed by
`process_topic` is `["2","2","3"]`: the within-run duplicate `"2"` is NOT
removed, the batch holds three items rather than two, and the run reports
`new = 3`. -/
theorem c2_counterexample_duplicate_not_removed :
    new_ids ["1"] ["1", "2", "2", "3"] = ["2", "2", "3"] ∧
    (new_ids ["1"] ["1", "2", "2", "3"]).count "2" = 2 ∧
    (build_items (new_ids ["1"] ["1", "2", "2", "3"]) [] "T1" "C").length = 3 ∧
    (process_topic ⟨"T1", "C", "Q"⟩
        ⟨none, [("T1", { processed_pmids := ["1"], last_update := none })]⟩ 30 200 false
        (some "u") (some "k")
        ⟨NetResult.ok ["1", "2", "2", "3"], NetResult.ok [], WriteOutcome.status 200,
          "t0"⟩).2.2.1 = 3 :=
  ⟨rfl, rfl, rfl, rfl⟩

/-- C2 amended: the candidate list drops exactly the already-processed
identifiers but performs no within-run deduplication: an identifier outside
`processed` occurs in the candidate list as many times as in `found_ids`
(so `["1","2","2","3"]` against `["1"]` yields `["2","2","3"]`, `"2"`
twice), an identifier in `processed` occurs zero times, and the batch has
one item per candidate-list entry. -/
theorem c2_amended_candidate_multiplicity (processed found : List String) (p : String)
    (summaries : List (String × Summary)) (name coll : String) :
    (p ∉ processed → (new_ids processed found).count p = found.count p) ∧
    (p ∈ processed → (new_ids processed found).count p = 0) ∧
    (build_items (new_ids processed found) summaries name coll).length
      = (new_ids processed found).length := by
  refine ⟨?_, ?_, ?_⟩
  · intro hp
    unfold new_ids
    exact List.count_filter (by simpa using hp)
  · intro hp
    rw [List.count_eq_zero]
    intro hmem
    exact (mem_new_ids.mp hmem).2 hp
  · unfold build_items
    exact List.length_map _ _

/-- Witness for C2's amended theorem at the spec's example values. -/
theorem c2_amended_witness :
    (new_ids ["1"] ["1", "2", "2", "3"]).count "2"
        = (["1", "2", "2", "3"] : List String).count "2" ∧
    (new_ids ["1"] ["1", "2", "2", "3"]).count "1" = 0 ∧
    (build_items (new_ids ["1"] ["1", "2", "2", "3"]) [] "T1" "C").length
        = (new_ids ["1"] ["1", "2", "2", "3"]).length :=
  ⟨(c2_amended_candidate_multiplicity ["1"] ["1", "2", "2", "3"] "2" [] "T1" "C").1
      (by decide),
    (c2_amended_candidate_multiplicity ["1"] ["1", "2", "2", "3"] "1" [] "T1" "C").2.1
      (by decide),
    (c2_amended_candidate_multiplicity ["1"] ["1", "2", "2", "3"] "2" [] "T1" "C").2.2⟩

/-- C3: an identifier already stored in the topic's processed list at the
start of a run never reaches the writer: it is not in the candidate list,
and every item of the submitted batch is built from a candidate identifier
different from it. -/
theorem c3_processed_never_resubmitted (state : RunState) (topic : Topic)
    (env : NetworkEnv) (p : String) (hp : p ∈ processedOf state topic.name) :
    p ∉ candidate_ids state topic env ∧
    ∀ item ∈ submitted_items state topic env,
      ∃ q ∈ candidate_ids state topic env, q ≠ p ∧
        item = make_zotero_item q
          ((dictLookup
              (fetch_pubmed_summaries (candidate_ids state topic env) env.summaryOutcome)
              q).getD emptySummary)
          topic.name topic.collection := by
  have hnot : p ∉ candidate_ids state topic env := by
    intro hmem
    exact (mem_new_ids.mp hmem).2 hp
  refine ⟨hnot, ?_⟩
  intro item hitem
  unfold submitted_items build_items at hitem
  obtain ⟨q, hq, rfl⟩ := List.mem_map.mp hitem
  refine ⟨q, hq, ?_, rfl⟩
  intro hqp
  exact hnot (hqp ▸ hq)

/-- Witness for C3: with `processed = ["1"]` and search result `["1","2"]`,
the stored id `"1"` is not among the candidates. -/
theorem c3_witness :
    "1" ∉ candidate_ids
        ⟨none, [("T1", { processed_pmids := ["1"], last_update := none })]⟩
        ⟨"T1", "C", "Q"⟩
        ⟨NetResult.ok ["1", "2"], NetResult.ok [], WriteOutcome.status 200, "t0"⟩ :=
  (c3_processed_never_resubmitted
      ⟨none, [("T1", { processed_pmids := ["1"], last_update := none })]⟩
      ⟨"T1", "C", "Q"⟩
      ⟨NetResult.ok ["1", "2"], NetResult.ok [], WriteOutcome.status 200, "t0"⟩
      "1" (by decide)).1

theorem processedOf_setdefault_all (state : RunState) (key nm : String) :
    processedOf { state with topics := dictSetdefault state.topics key freshTopicState } nm
      = processedOf state nm :=
  congrArg TopicState.processed_pmids (topicStateOf_setdefault_all state key nm)

theorem mem_candidate_ids {state : RunState} {topic : Topic} {env : NetworkEnv}
    {p : String} :
    p ∈ candidate_ids state topic env ↔
      p ∈ esearch_pubmed env.searchOutcome ∧ p ∉ processedOf state topic.name :=
  mem_new_ids

/-- C4 counterexample: a credited non-preview run whose search result is
`["2","2"]` (a within-run duplicate) starting from an empty processed list
stores `["2","2"]` — the stored sequence now contains a duplicate, so the
claimed no-duplicates invariant is not preserved by every run. -/
theorem c4_counterexample_duplicate_stored :
    processedOf
        (process_topic ⟨"T1", "C", "Q"⟩ ⟨none, []⟩ 30 200 false (some "u") (some "k")
          ⟨NetResult.ok ["2", "2"], NetResult.ok [], WriteOutcome.status 200, "t0"⟩).1
        "T1" = ["2", "2"] ∧
    ¬ List.Nodup
        (processedOf
          (process_topic ⟨"T1", "C", "Q"⟩ ⟨none, []⟩ 30 200 false (some "u") (some "k")
            ⟨NetResult.ok ["2", "2"], NetResult.ok [], WriteOutcome.status 200, "t0"⟩).1
          "T1") :=
  ⟨rfl, by decide⟩

/-- C4 amended: every run is append-only on the stored sequence — the prior
value is an unchanged prefix, the appended suffix consists of identifiers
absent from the prior value, and a preview run changes nothing; the
sequence stays duplicate-free whenever the search result itself has no
within-run duplicates (but can acquire duplicates when it does). -/
theorem c4_amended_append_only (topic : Topic) (state : RunState)
    (days_back retmax : Nat) (dry_run : Bool) (user_id api_key : Option String)
    (env : NetworkEnv) (state' : RunState) (found newN written : Nat)
    (h : process_topic topic state days_back retmax dry_run user_id api_key env
          = (state', found, newN, written)) :
    (∃ tail, processedOf state' topic.name = processedOf state topic.name ++ tail ∧
        ∀ p ∈ tail, p ∉ processedOf state topic.name) ∧
    (dry_run = true → processedOf state' topic.name = processedOf state topic.name) ∧
    ((esearch_pubmed env.searchOutcome).Nodup → (processedOf state topic.name).Nodup →
        (processedOf state' topic.name).Nodup) := by
  rw [process_topic_eq] at h
  by_cases hc : candidate_ids state topic env = []
  · rw [if_pos hc] at h
    simp only [Prod.mk.injEq] at h
    obtain ⟨rfl, rfl, rfl, rfl⟩ := h
    refine ⟨⟨[], by simp [processedOf_setdefault_all], by simp⟩,
      fun _ => processedOf_setdefault_all state topic.name topic.name, fun _ hn => ?_⟩
    rw [processedOf_setdefault_all]
    exact hn
  · rw [if_neg hc] at h
    by_cases hw : written_count state topic dry_run user_id api_key env > 0 ∧
        dry_run = false
    · rw [if_pos hw] at h
      simp only [Prod.mk.injEq] at h
      obtain ⟨rfl, rfl, rfl, rfl⟩ := h
      have hps : processedOf
          { state with
              topics := dictSet (dictSetdefault state.topics topic.name freshTopicState)
                topic.name
                { processed_pmids :=
                    processedOf state topic.name ++ candidate_ids state topic env,
                  last_update := some env.now } } topic.name
          = processedOf state topic.name ++ candidate_ids state topic env := by
        unfold processedOf
        rw [topicStateOf_set_setdefault]
      refine ⟨⟨candidate_ids state topic env, hps,
          fun p hp => (mem_candidate_ids.mp hp).2⟩, ?_, ?_⟩
      · intro hd
        rw [hw.2] at hd
        exact absurd hd (by simp)
      · intro hpm hpr
        rw [hps]
        exact hpr.append (hpm.filter _)
          (fun a h1 h2 => (mem_candidate_ids.mp h2).2 h1)
    · rw [if_neg hw] at h
      simp only [Prod.mk.injEq] at h
      obtain ⟨rfl, rfl, rfl, rfl⟩ := h
      refine ⟨⟨[], by simp [processedOf_setdefault_all], by simp⟩,
        fun _ => processedOf_setdefault_all state topic.name topic.name, fun _ hn => ?_⟩
      rw [processedOf_setdefault_all]
      exact hn

/-- Witness for C4's amended theorem: a concrete preview run leaves the
stored sequence unchanged. -/
theorem c4_amended_witness :
    processedOf
        (process_topic ⟨"T1", "C", "Q"⟩
          ⟨none, [("T1", { processed_pmids := ["1"], last_update := none })]⟩ 30 200 true
          (some "u") (some "k")
          ⟨NetResult.ok ["1", "2"], NetResult.ok [], WriteOutcome.status 200, "t0"⟩).1
        "T1"
      = processedOf ⟨none, [("T1", { processed_pmids := ["1"], last_update := none })]⟩
          "T1" :=
  (c4_amended_append_only ⟨"T1", "C", "Q"⟩
      ⟨none, [("T1", { processed_pmids := ["1"], last_update := none })]⟩ 30 200 true
      (some "u") (some "k")
      ⟨NetResult.ok ["1", "2"], NetResult.ok [], WriteOutcome.status 200, "t0"⟩
      _ 2 1 1 rfl).2.1 rfl

/-- C5 counterexample: when the first run's write fails (HTTP 500 → zero
credited), the state does not advance, and a second run with the identical
search result reports `new = 1` again — not `new = 0, written = 0` as the
claim states for every state. -/
theorem c5_counterexample_uncredited_first_run :
    (process_topic ⟨"T1", "C", "Q"⟩
        (process_topic ⟨"T1", "C", "Q"⟩ ⟨none, []⟩ 30 200 false (some "u") (some "k")
          ⟨NetResult.ok ["1"], NetResult.ok [], WriteOutcome.status 500, "t0"⟩).1
        30 200 false (some "u") (some "k")
        ⟨NetResult.ok ["1"], NetResult.ok [], WriteOutcome.status 500, "t0"⟩).2.2.1 = 1 ∧
    ¬ ((process_topic ⟨"T1", "C", "Q"⟩
          (process_topic ⟨"T1", "C", "Q"⟩ ⟨none, []⟩ 30 200 false (some "u") (some "k")
            ⟨NetResult.ok ["1"], NetResult.ok [], WriteOutcome.status 500, "t0"⟩).1
          30 200 false (some "u") (some "k")
          ⟨NetResult.ok ["1"], NetResult.ok [], WriteOutcome.status 500, "t0"⟩).2.2.1 = 0 ∧
        (process_topic ⟨"T1", "C", "Q"⟩
          (process_topic ⟨"T1", "C", "Q"⟩ ⟨none, []⟩ 30 200 false (some "u") (some "k")
            ⟨NetResult.ok ["1"], NetResult.ok [], WriteOutcome.status 500, "t0"⟩).1
          30 200 false (some "u") (some "k")
          ⟨NetResult.ok ["1"], NetResult.ok [], WriteOutcome.status 500, "t0"⟩).2.2.2 = 0) :=
  ⟨rfl, by decide⟩

/-- C5 amended: idempotence holds once the first run actually advanced or
had nothing to advance: if the first run is non-preview and its write was
credited (`written > 0`) — or it found no new identifiers — then a second
run with an unchanged search result reports `new = 0` and `written = 0`. -/
theorem c5_amended_idempotent_after_credited_run (topic : Topic) (state : RunState)
    (days_back retmax days_back2 retmax2 : Nat) (dry2 : Bool)
    (user_id api_key uid2 key2 : Option String) (env env2 : NetworkEnv)
    (state1 : RunState) (f1 n1 w1 : Nat)
    (h1 : process_topic topic state days_back retmax false user_id api_key env
          = (state1, f1, n1, w1))
    (hok : w1 > 0 ∨ n1 = 0)
    (hsame : esearch_pubmed env2.searchOutcome = esearch_pubmed env.searchOutcome) :
    (process_topic topic state1 days_back2 retmax2 dry2 uid2 key2 env2).2.2.1 = 0 ∧
    (process_topic topic state1 days_back2 retmax2 dry2 uid2 key2 env2).2.2.2 = 0 := by
  have hc2 : candidate_ids state1 topic env2 = [] := by
    rw [process_topic_eq] at h1
    by_cases hc : candidate_ids state topic env = []
    · rw [if_pos hc] at h1
      simp only [Prod.mk.injEq] at h1
      obtain ⟨rfl, rfl, rfl, rfl⟩ := h1
      unfold candidate_ids
      rw [hsame, processedOf_setdefault_all]
      exact hc
    · rw [if_neg hc] at h1
      by_cases hw0 : written_count state topic false user_id api_key env > 0
      · rw [if_pos ⟨hw0, rfl⟩] at h1
        simp only [Prod.mk.injEq] at h1
        obtain ⟨rfl, rfl, rfl, rfl⟩ := h1
        have hps : processedOf
            { state with
                topics := dictSet (dictSetdefault state.topics topic.name freshTopicState)
                  topic.name
                  { processed_pmids :=
                      processedOf state topic.name ++ candidate_ids state topic env,
                    last_update := some env.now } } topic.name
            = processedOf state topic.name ++ candidate_ids state topic env := by
          unfold processedOf
          rw [topicStateOf_set_setdefault]
        unfold candidate_ids
        rw [hsame]
        unfold candidate_ids at hps
        rw [hps]
        exact new_ids_append_self (processedOf state topic.name)
          (esearch_pubmed env.searchOutcome)
      · rw [if_neg (fun hcon => hw0 hcon.1)] at h1
        simp only [Prod.mk.injEq] at h1
        obtain ⟨rfl, rfl, rfl, rfl⟩ := h1
        rcases hok with hbig | hzero
        · exact absurd hbig hw0
        · rw [List.length_eq_zero] at hzero
          exact absurd hzero hc
  rw [process_topic_eq, if_pos hc2]
  exact ⟨rfl, rfl⟩

/-- Witness for C5's amended theorem: after a credited first run over
`["100","101"]`, the identical second search yields `new = 0, written = 0`. -/
theorem c5_witness :
    (process_topic ⟨"T1", "COLL", "Q"⟩
        (process_topic ⟨"T1", "COLL", "Q"⟩ ⟨none, []⟩ 30 200 false (some "u") (some "k")
          ⟨NetResult.ok ["100", "101"], NetResult.ok [], WriteOutcome.status 200, "t0"⟩).1
        30 200 false (some "u") (some "k")
        ⟨NetResult.ok ["100", "101"], NetResult.ok [], WriteOutcome.status 200, "t1"⟩).2.2.1
      = 0 ∧
    (process_topic ⟨"T1", "COLL", "Q"⟩
        (process_topic ⟨"T1", "COLL", "Q"⟩ ⟨none, []⟩ 30 200 false (some "u") (some "k")
          ⟨NetResult.ok ["100", "101"], NetResult.ok [], WriteOutcome.status 200, "t0"⟩).1
        30 200 false (some "u") (some "k")
        ⟨NetResult.ok ["100", "101"], NetResult.ok [], WriteOutcome.status 200, "t1"⟩).2.2.2
      = 0 :=
  c5_amended_idempotent_after_credited_run ⟨"T1", "COLL", "Q"⟩ ⟨none, []⟩ 30 200 30 200
    false (some "u") (some "k") (some "u") (some "k")
    ⟨NetResult.ok ["100", "101"], NetResult.ok [], WriteOutcome.status 200, "t0"⟩
    ⟨NetResult.ok ["100", "101"], NetResult.ok [], WriteOutcome.status 200, "t1"⟩
    _ 2 2 2 rfl (Or.inl (by decide)) rfl

/-- C6: for a non-empty batch the writer credits all-or-nothing: the
result is 0 or the full batch size; in preview it is the batch size (the
batch is not sent); without usable credentials it is 0; with credentials it
is the batch size exactly for an HTTP 200/201 response — the statuses the
code accepts as success — and 0 for any other status, a timeout, or a
request error. -/
theorem c6_write_all_or_nothing (items : List ZoteroItem) (dry_run : Bool)
    (user_id api_key : Option String) (outcome : WriteOutcome)
    (hne : items ≠ []) :
    (push_to_zotero items dry_run user_id api_key outcome = 0 ∨
      push_to_zotero items dry_run user_id api_key outcome = items.length) ∧
    (dry_run = true →
      push_to_zotero items dry_run user_id api_key outcome = items.length) ∧
    (dry_run = false → truthy user_id = false ∨ truthy api_key = false →
      push_to_zotero items dry_run user_id api_key outcome = 0) ∧
    (dry_run = false → truthy user_id = true → truthy api_key = true →
      ∀ code, outcome = WriteOutcome.status code →
        push_to_zotero items dry_run user_id api_key outcome =
          if code = 200 ∨ code = 201 then items.length else 0) ∧
    (dry_run = false → truthy user_id = true → truthy api_key = true →
      outcome = WriteOutcome.timeout ∨ outcome = WriteOutcome.requestError →
        push_to_zotero items dry_run user_id api_key outcome = 0) := by
  unfold push_to_zotero
  rw [if_neg hne]
  refine ⟨?_, ?_, ?_, ?_, ?_⟩
  · rcases dry_run with _ | _
    · rcases hu : truthy user_id with _ | _
      · left
        simp [hu]
      · rcases hk : truthy api_key with _ | _
        · left
          simp [hk]
        · rcases outcome with code | _ | _
          · by_cases hcode : code = 200 ∨ code = 201
            · right
              simp [hu, hk, hcode]
            · left
              simp [hu, hk, hcode]
          · left
            simp [hu, hk]
          · left
            simp [hu, hk]
    · right
      simp
  · rintro rfl
    simp
  · rintro rfl hcred
    rcases hcred with hu | hk
    · simp [hu]
    · simp [hk]
  · rintro rfl hu hk code rfl
    simp [hu, hk]
  · rintro rfl hu hk hcase
    rcases hcase with rfl | rfl <;> simp [hu, hk]

/-- Witness for C6: one non-empty item batch, with an HTTP 201 response and
credentials present, is credited in full. -/
theorem c6_witness :
    push_to_zotero [make_zotero_item "100" emptySummary "T1" "C"] false (some "u")
        (some "k") (WriteOutcome.status 201)
      = [make_zotero_item "100" emptySummary "T1" "C"].length :=
  by
    have h := (c6_write_all_or_nothing [make_zotero_item "100" emptySummary "T1" "C"]
        false (some "u") (some "k") (WriteOutcome.status 201) (by simp)).2.2.2.1
        rfl (by decide) (by decide) 201 rfl
    simpa using h

/-- C7: per-topic failure isolation: a run whose search request raises
reports `found = 0, new = 0, written = 0` and leaves every topic's
processed list unchanged; a raised summary request yields an empty metadata
mapping (the run proceeds with placeholders); and the orchestrator's loop
still produces one report entry per configured topic. -/
theorem c7_failure_isolation (topics : List Topic) (topic : Topic) (state : RunState)
    (days_back retmax : Nat) (dry_run : Bool) (user_id api_key : Option String)
    (env : NetworkEnv) (envs : Topic → NetworkEnv)
    (state' : RunState) (found newN written : Nat)
    (h : process_topic topic state days_back retmax dry_run user_id api_key env
          = (state', found, newN, written))
    (hfail : env.searchOutcome = NetResult.err) :
    found = 0 ∧ newN = 0 ∧ written = 0 ∧
    (∀ nm, processedOf state' nm = processedOf state nm) ∧
    (∀ pmids, fetch_pubmed_summaries pmids NetResult.err = []) ∧
    (run_topics topics state days_back retmax dry_run user_id api_key envs).2.length
      = topics.length := by
  have hsearch : esearch_pubmed env.searchOutcome = [] := by
    rw [hfail]
    rfl
  have hc : candidate_ids state topic env = [] := by
    unfold candidate_ids
    rw [hsearch]
    rfl
  rw [process_topic_eq, if_pos hc] at h
  simp only [Prod.mk.injEq] at h
  obtain ⟨rfl, rfl, rfl, rfl⟩ := h
  refine ⟨by simp [hsearch], rfl, rfl, ?_, ?_, ?_⟩
  · intro nm
    exact processedOf_setdefault_all state topic.name nm
  · intro pmids
    unfold fetch_pubmed_summaries
    split <;> rfl
  · exact run_topics_report_length topics state days_back retmax dry_run user_id
      api_key envs

/-- Witness for C7: a concrete run whose search raises reports zeros and
keeps the stored list `["1"]` intact. -/
theorem c7_witness :
    (0 : Nat) = 0 ∧ (0 : Nat) = 0 ∧ (0 : Nat) = 0 ∧
    (∀ nm, processedOf
        (process_topic ⟨"T1", "C", "Q"⟩
          ⟨none, [("T1", { processed_pmids := ["1"], last_update := none })]⟩ 30 200 false
          (some "u") (some "k")
          ⟨NetResult.err, NetResult.ok [], WriteOutcome.status 200, "t0"⟩).1 nm
      = processedOf ⟨none, [("T1", { processed_pmids := ["1"], last_update := none })]⟩ nm) ∧
    (∀ pmids, fetch_pubmed_summaries pmids NetResult.err = []) ∧
    (run_topics [⟨"T1", "C", "Q"⟩, ⟨"T2", "D", "R"⟩]
        ⟨none, [("T1", { processed_pmids := ["1"], last_update := none })]⟩ 30 200 false
        (some "u") (some "k")
        (fun _ => ⟨NetResult.err, NetResult.ok [], WriteOutcome.status 200, "t0"⟩)).2.length
      = ([⟨"T1", "C", "Q"⟩, ⟨"T2", "D", "R"⟩] : List Topic).length :=
  c7_failure_isolation [⟨"T1", "C", "Q"⟩, ⟨"T2", "D", "R"⟩] ⟨"T1", "C", "Q"⟩
    ⟨none, [("T1", { processed_pmids := ["1"], last_update := none })]⟩ 30 200 false
    (some "u") (some "k")
    ⟨NetResult.err, NetResult.ok [], WriteOutcome.status 200, "t0"⟩
    (fun _ => ⟨NetResult.err, NetResult.ok [], WriteOutcome.status 200, "t0"⟩)
    _ 0 0 0 rfl rfl

/-- C8: `load_state` fails open: an absent file and an unreadable or
malformed file both yield the fresh empty run state, and a readable
well-formed file yields exactly its parsed contents. -/
theorem c8_load_state_fails_open (file : StateFileCondition) :
    (file = StateFileCondition.absent →
        load_state file = { last_run := none, topics := [] }) ∧
    (file = StateFileCondition.unreadable →
        load_state file = { last_run := none, topics := [] }) ∧
    (∀ s, file = StateFileCondition.content s → load_state file = s) := by
  refine ⟨?_, ?_, ?_⟩
  · rintro rfl
    rfl
  · rintro rfl
    rfl
  · rintro s rfl
    rfl

/-- Witness for C8 at the three concrete file conditions. -/
theorem c8_witness :
    load_state StateFileCondition.absent = { last_run := none, topics := [] } ∧
    load_state StateFileCondition.unreadable = { last_run := none, topics := [] } ∧
    load_state (StateFileCondition.content
        { last_run := some "t",
          topics := [("T1", { processed_pmids := ["1"], last_update := none })] })
      = { last_run := some "t",
          topics := [("T1", { processed_pmids := ["1"], last_update := none })] } :=
  ⟨(c8_load_state_fails_open StateFileCondition.absent).1 rfl,
    (c8_load_state_fails_open StateFileCondition.unreadable).2.1 rfl,
    (c8_load_state_fails_open (StateFileCondition.content
        { last_run := some "t",
          topics := [("T1", { processed_pmids := ["1"], last_update := none })] })).2.2
      _ rfl⟩

/-- C9: the batch has exactly one item per new identifier regardless of
metadata coverage: an identifier with no summary entry still yields an item
— built from the empty dict, with the placeholder title `"PMID <id>"` and
empty journal/date/volume/issue/pages fields — and is never omitted. -/
theorem c9_missing_metadata_still_translated (new_pmids : List String)
    (summaries : List (String × Summary)) (name coll pmid : String) :
    (build_items new_pmids summaries name coll).length = new_pmids.length ∧
    (pmid ∈ new_pmids → dictLookup summaries pmid = none →
        make_zotero_item pmid emptySummary name coll
          ∈ build_items new_pmids summaries name coll) ∧
    (make_zotero_item pmid emptySummary name coll).title = "PMID " ++ pmid ∧
    (make_zotero_item pmid emptySummary name coll).publicationTitle = "" ∧
    (make_zotero_item pmid emptySummary name coll).date = "" ∧
    (make_zotero_item pmid emptySummary name coll).volume = "" ∧
    (make_zotero_item pmid emptySummary name coll).issue = "" ∧
    (make_zotero_item pmid emptySummary name coll).pages = "" := by
  refine ⟨List.length_map _ _, ?_, rfl, rfl, rfl, rfl, rfl, rfl⟩
  intro hmem hnone
  unfold build_items
  refine List.mem_map.mpr ⟨pmid, hmem, ?_⟩
  rw [hnone]
  rfl

/-- Witness for C9: id `"101"` has no summary entry but still yields an
item, and the batch size equals the new-id count. -/
theorem c9_witness :
    (build_items ["100", "101"]
        [("100", { emptySummary with title := some "A title" })] "T1" "C").length
      = (["100", "101"] : List String).length ∧
    make_zotero_item "101" emptySummary "T1" "C"
      ∈ build_items ["100", "101"]
          [("100", { emptySummary with title := some "A title" })] "T1" "C" :=
  ⟨(c9_missing_metadata_still_translated ["100", "101"]
      [("100", { emptySummary with title := some "A title" })] "T1" "C" "101").1,
    (c9_missing_metadata_still_translated ["100", "101"]
      [("100", { emptySummary with title := some "A title" })] "T1" "C" "101").2.1
      (by decide) rfl⟩

/-- C10: calling `process_topic` on a topic name absent from the topics
mapping inserts an entry for it — still the fresh `{"processed_pmids": []}`
whenever the run is a preview or the write credited nothing — while every
other topic's entry is left untouched. -/
theorem c10_absent_topic_inserted (topic : Topic) (state : RunState)
    (days_back retmax : Nat) (dry_run : Bool) (user_id api_key : Option String)
    (env : NetworkEnv) (state' : RunState) (found newN written : Nat)
    (h : process_topic topic state days_back retmax dry_run user_id api_key env
          = (state', found, newN, written))
    (habs : dictLookup state.topics topic.name = none) :
    (∃ ts, dictLookup state'.topics topic.name = some ts) ∧
    (dry_run = true ∨ written = 0 →
        dictLookup state'.topics topic.name = some freshTopicState) ∧
    (∀ nm, nm ≠ topic.name → dictLookup state'.topics nm = dictLookup state.topics nm) := by
  have hfresh : dictLookup (dictSetdefault state.topics topic.name freshTopicState)
      topic.name = some freshTopicState := by
    rw [dictLookup_setdefault_self, habs]
    rfl
  rw [process_topic_eq] at h
  by_cases hc : candidate_ids state topic env = []
  · rw [if_pos hc] at h
    simp only [Prod.mk.injEq] at h
    obtain ⟨rfl, rfl, rfl, rfl⟩ := h
    exact ⟨⟨freshTopicState, hfresh⟩, fun _ => hfresh,
      fun nm hnm => dictLookup_setdefault_other state.topics topic.name nm
        freshTopicState hnm⟩
  · rw [if_neg hc] at h
    by_cases hw : written_count state topic dry_run user_id api_key env > 0 ∧
        dry_run = false
    · rw [if_pos hw] at h
      simp only [Prod.mk.injEq] at h
      obtain ⟨rfl, rfl, rfl, rfl⟩ := h
      refine ⟨⟨_, dictLookup_set_setdefault_self state.topics topic.name _
          freshTopicState⟩, ?_, ?_⟩
      · rintro (hd | h0)
        · rw [hw.2] at hd
          exact absurd hd (by simp)
        · exact absurd hw.1 (by omega)
      · intro nm hnm
        rw [dictLookup_set_other _ topic.name nm _ hnm]
        exact dictLookup_setdefault_other state.topics topic.name nm freshTopicState hnm
    · rw [if_neg hw] at h
      simp only [Prod.mk.injEq] at h
      obtain ⟨rfl, rfl, rfl, rfl⟩ := h
      exact ⟨⟨freshTopicState, hfresh⟩, fun _ => hfresh,
        fun nm hnm => dictLookup_setdefault_other state.topics topic.name nm
          freshTopicState hnm⟩

/-- Witness for C10: a preview run on an unknown topic name inserts the
fresh entry and leaves the other topic's entry unchanged. -/
theorem c10_witness :
    dictLookup
        (process_topic ⟨"T2", "D", "R"⟩
          ⟨none, [("T1", { processed_pmids := ["1"], last_update := none })]⟩ 30 200 true
          (some "u") (some "k")
          ⟨NetResult.ok ["5"], NetResult.ok [], WriteOutcome.status 200, "t0"⟩).1.topics
        "T2" = some freshTopicState ∧
    dictLookup
        (process_topic ⟨"T2", "D", "R"⟩
          ⟨none, [("T1", { processed_pmids := ["1"], last_update := none })]⟩ 30 200 true
          (some "u") (some "k")
          ⟨NetResult.ok ["5"], NetResult.ok [], WriteOutcome.status 200, "t0"⟩).1.topics
        "T1"
      = dictLookup [("T1", { processed_pmids := ["1"], last_update := none })] "T1" :=
  ⟨(c10_absent_topic_inserted ⟨"T2", "D", "R"⟩
      ⟨none, [("T1", { processed_pmids := ["1"], last_update := none })]⟩ 30 200 true
      (some "u") (some "k")
      ⟨NetResult.ok ["5"], NetResult.ok [], WriteOutcome.status 200, "t0"⟩
      _ 1 1 1 rfl rfl).2.1 (Or.inl rfl),
    (c10_absent_topic_inserted ⟨"T2", "D", "R"⟩
      ⟨none, [("T1", { processed_pmids := ["1"], last_update := none })]⟩ 30 200 true
      (some "u") (some "k")
      ⟨NetResult.ok ["5"], NetResult.ok [], WriteOutcome.status 200, "t0"⟩
      _ 1 1 1 rfl rfl).2.2 "T1" (by decide)⟩
